import Mathlib

/-!
Verification of the notification service
(crates/services/src/services/notification.rs).

The service is embedded shallowly: the two process-wide caches
(WSL_ROOT_PATH_CACHE, DBUS_AVAILABLE / DBUS_CHECK_DONE) become an explicit
state record threaded through each operation, and every externally visible
action (process spawn, toast call, env-var read, log line) is recorded in an
effect list.  Outcomes of external commands (probe result, toast result,
root-resolution command result) are supplied by an environment record, so
each Rust control path corresponds to a concrete environment value.
-/

/-- Compile-time target OS, standing for the cfg(target_os) checks. -/
inductive OS where
  | macos
  | linux
  | windows
  | other
deriving DecidableEq, Repr

/-- Outcome of the 500 ms bounded dbus-send probe in check_dbus_available:
the command ran and its exit status succeeded or not, the spawn_blocking
task itself failed, or the timeout elapsed. -/
inductive ProbeOutcome where
  | result (success : Bool)
  | taskFailed
  | timedOut
deriving DecidableEq, Repr

/-- Outcome of the 2 s bounded notify-rust show() call in
send_linux_notification. -/
inductive ToastOutcome where
  | ok
  | showErr (msg : String)
  | taskFailed
  | timedOut
deriving DecidableEq, Repr

/-- Standard output of the PowerShell root-resolution command: valid UTF-8
text or not. -/
inductive StdoutData where
  | utf8 (s : String)
  | nonUtf8
deriving DecidableEq, Repr

/-- Outcome of executing the PowerShell root-resolution command in
get_wsl_root_path: the command could not be executed, or it ran with some
exit status and produced some stdout. -/
inductive RootCmdOutcome where
  | execErr
  | ran (statusSuccess : Bool) (stdout : StdoutData)
deriving DecidableEq, Repr

/-- The external world, fixed for one call: platform facts plus the outcomes
the external commands would produce if invoked. -/
structure Env where
  targetOS : OS
  is_wsl2 : Bool
  soundPath : Option String
  paplayOk : Bool
  aplayOk : Bool
  disableDbusEnvSet : Bool
  probe : ProbeOutcome
  toast : ToastOutcome
  rootCmd : RootCmdOutcome
  scriptPath : Option String
deriving DecidableEq, Repr

/-- The process-wide mutable state of notification.rs:
WSL_ROOT_PATH_CACHE (a OnceLock of Option String, none = unset) and the two
atomics DBUS_AVAILABLE / DBUS_CHECK_DONE. -/
structure NotifState where
  wslRootCache : Option (Option String)
  dbusAvailable : Bool
  dbusCheckDone : Bool
deriving DecidableEq, Repr

/-- Initial process state: cache unset, DBUS_AVAILABLE true,
DBUS_CHECK_DONE false. -/
def initState : NotifState := ⟨none, true, false⟩

/-- Externally visible actions, recorded in order. -/
inductive Effect where
  | spawn (cmd : String)
  | toastShow
  | getSoundPath
  | getScriptPath
  | readEnvVar (name : String)
  | logWarn
  | logError
  | logInfo
  | logDebug
deriving DecidableEq, Repr

/-- Caller-supplied notification configuration (sound_file modelled by its
name; its get_path outcome lives in Env.soundPath). -/
structure NotificationConfig where
  sound_enabled : Bool
  push_enabled : Bool
  sound_file : String
deriving DecidableEq, Repr

/-- Status of an execution process; the source matches Completed, Failed,
Killed and treats everything else (still running) as non-terminal. -/
inductive ExecutionProcessStatus where
  | completed
  | failed
  | killed
  | running
deriving DecidableEq, Repr

structure TaskModel where
  title : String
deriving DecidableEq, Repr

structure TaskAttempt where
  branch : Option String
  executor : String
  id : String
deriving DecidableEq, Repr

structure ExecutionProcess where
  status : ExecutionProcessStatus
deriving DecidableEq, Repr

structure ExecutionContext where
  task : TaskModel
  task_attempt : TaskAttempt
  execution_process : ExecutionProcess
deriving DecidableEq, Repr

/-- A single-quote character, used inside the formatted messages. -/
def quoteCh : String := Char.toString (Char.ofNat 39)

/-- Debug rendering of an Option String, as produced by the Rust formatter. -/
def optionDebug : Option String → String
  | none => "None"
  | some s => "Some(\"" ++ s ++ "\")"

/-- Does the first character list begin with the second? -/
def beginsWithChars : List Char → List Char → Bool
  | _, [] => true
  | [], _ :: _ => false
  | c :: cs, p :: ps => (c = p) && beginsWithChars cs ps

/-- Does the first character list contain the second as a contiguous run? -/
def charsContain : List Char → List Char → Bool
  | [], pat => pat.isEmpty
  | c :: cs, pat => beginsWithChars (c :: cs) pat || charsContain cs pat

/-- Does s contain pat as a substring, modelling str::contains? -/
def strContains (s pat : String) : Bool :=
  charsContain s.data pat.data

/-- Does s start with pre, modelling str::starts_with? -/
def strStartsWith (s pre : String) : Bool :=
  beginsWithChars s.data pre.data

/-- Whitespace trim on both ends, modelling str::trim. -/
def trimString (s : String) : String :=
  ⟨((s.data.dropWhile Char.isWhitespace).reverse.dropWhile
      Char.isWhitespace).reverse⟩

/-- get_wsl_root_path: return the cached Option String if the OnceLock is
set; otherwise run the PowerShell pwd command and cache
Some(trimmed stdout) on any UTF-8 stdout (the exit status is never
inspected), or None on an execution fault or non-UTF-8 stdout. -/
def get_wsl_root_path (env : Env) (s : NotifState) :
    Option String × NotifState × List Effect :=
  match s.wslRootCache with
  | some cached => (cached, s, [])
  | none =>
    match env.rootCmd with
    | .ran _ (.utf8 str) =>
      let pwd := trimString str
      (some pwd, { s with wslRootCache := some (some pwd) },
        [.spawn "powershell.exe", .logInfo])
    | .ran _ .nonUtf8 =>
      (none, { s with wslRootCache := some none },
        [.spawn "powershell.exe", .logError])
    | .execErr =>
      (none, { s with wslRootCache := some none },
        [.spawn "powershell.exe", .logError])

/-- wsl_to_windows_path: a path without a leading separator is returned
unchanged; an absolute path is prefixed with the cached root by plain string
concatenation, or translation yields none when root resolution failed. -/
def wsl_to_windows_path (env : Env) (s : NotifState) (path : String) :
    Option String × NotifState × List Effect :=
  if strStartsWith path "/" = false then
    (some path, s, [.logDebug])
  else
    let (root, s1, e1) := get_wsl_root_path env s
    match root with
    | some r => (some (r ++ path), s1, e1 ++ [.logDebug])
    | none => (none, s1, e1 ++ [.logError])

/-- play_sound_notification: resolve the sound file, then per platform:
macOS plays via afplay; native Linux tries paplay, then aplay, then the
terminal bell, stopping at the first successful launch; Windows and WSL2
translate the path (WSL2 only) and play via PowerShell. -/
def play_sound_notification (env : Env) (s : NotifState) :
    NotifState × List Effect :=
  match env.soundPath with
  | none => (s, [.getSoundPath, .logError])
  | some file_path =>
    if env.targetOS = OS.macos then
      (s, [.getSoundPath, .spawn "afplay"])
    else if env.targetOS = OS.linux ∧ env.is_wsl2 = false then
      if env.paplayOk then
        (s, [.getSoundPath, .spawn "paplay"])
      else if env.aplayOk then
        (s, [.getSoundPath, .spawn "paplay", .spawn "aplay"])
      else
        (s, [.getSoundPath, .spawn "paplay", .spawn "aplay", .spawn "echo"])
    else if env.targetOS = OS.windows ∨
        (env.targetOS = OS.linux ∧ env.is_wsl2 = true) then
      let (_winPath, s1, e1) :=
        if env.is_wsl2 then
          let (r, s1, e1) := wsl_to_windows_path env s file_path
          (r.getD file_path, s1, e1)
        else
          (file_path, s, ([] : List Effect))
      (s1, [.getSoundPath] ++ e1 ++ [.spawn "powershell.exe"])
    else
      (s, [.getSoundPath])

/-- check_dbus_available: return the cached verdict if the check was already
done; otherwise honour the DISABLE_DBUS_NOTIFICATIONS override, or run the
dbus-send probe bounded to 500 ms, store the verdict and mark the check
done. -/
def check_dbus_available (env : Env) (s : NotifState) :
    Bool × NotifState × List Effect :=
  if s.dbusCheckDone then
    (s.dbusAvailable, s, [])
  else if env.disableDbusEnvSet then
    (false, { s with dbusAvailable := false, dbusCheckDone := true },
      [.readEnvVar "DISABLE_DBUS_NOTIFICATIONS", .logInfo])
  else
    let (is_available, probeEff) :=
      match env.probe with
      | .result b => (b, [Effect.spawn "dbus-send"])
      | .taskFailed => (false, [Effect.logWarn])
      | .timedOut => (false, [Effect.spawn "dbus-send", Effect.logWarn])
    (is_available,
      { s with dbusAvailable := is_available, dbusCheckDone := true },
      [Effect.readEnvVar "DISABLE_DBUS_NOTIFICATIONS"] ++ probeEff ++
        (if is_available then [] else [Effect.logInfo]))

/-- send_linux_notification: skip when the gate says unavailable; otherwise
issue the toast bounded to 2 s.  A show error trips the circuit only when
its message mentions DBus; a task failure or a timeout always trips it. -/
def send_linux_notification (env : Env) (s : NotifState)
    (_title _message : String) : NotifState × List Effect :=
  let (avail, s1, e1) := check_dbus_available env s
  if avail = false then
    (s1, e1 ++ [.logDebug])
  else
    match env.toast with
    | .ok => (s1, e1 ++ [.toastShow])
    | .showErr m =>
      if strContains m "DBus" || strContains m "D-Bus" then
        ({ s1 with dbusAvailable := false },
          e1 ++ [.toastShow, .logError, .logInfo])
      else
        (s1, e1 ++ [.toastShow, .logError])
    | .taskFailed =>
      ({ s1 with dbusAvailable := false }, e1 ++ [.logError])
    | .timedOut =>
      ({ s1 with dbusAvailable := false }, e1 ++ [.toastShow, .logError])

/-- send_macos_notification: shell out to osascript with the generated
script. -/
def send_macos_notification (_env : Env) (s : NotifState)
    (_title _message : String) : NotifState × List Effect :=
  (s, [.spawn "osascript"])

/-- send_windows_notification: resolve the toast script path, translate it
under WSL2, and launch PowerShell with it. -/
def send_windows_notification (env : Env) (s : NotifState)
    (_title _message : String) : NotifState × List Effect :=
  match env.scriptPath with
  | none => (s, [.getScriptPath, .logError])
  | some script_path =>
    let (_winPath, s1, e1) :=
      if env.is_wsl2 then
        let (r, s1, e1) := wsl_to_windows_path env s script_path
        (r.getD script_path, s1, e1)
      else
        (script_path, s, ([] : List Effect))
    (s1, [.getScriptPath] ++ e1 ++ [.spawn "powershell.exe"])

/-- send_push_notification: per-platform dispatch of the toast channel. -/
def send_push_notification (env : Env) (s : NotifState)
    (title message : String) : NotifState × List Effect :=
  if env.targetOS = OS.macos then
    send_macos_notification env s title message
  else if env.targetOS = OS.linux ∧ env.is_wsl2 = false then
    send_linux_notification env s title message
  else if env.targetOS = OS.windows ∨
      (env.targetOS = OS.linux ∧ env.is_wsl2 = true) then
    send_windows_notification env s title message
  else
    (s, [])

/-- notify: trigger the sound channel when sound_enabled and the push
channel when push_enabled. -/
def notify (env : Env) (s : NotifState) (config : NotificationConfig)
    (title message : String) : NotifState × List Effect :=
  let (s1, e1) :=
    if config.sound_enabled then play_sound_notification env s else (s, [])
  let (s2, e2) :=
    if config.push_enabled then send_push_notification env s1 title message
    else (s1, [])
  (s2, e1 ++ e2)

/-- Title used by notify_execution_halted. -/
def halted_title (ctx : ExecutionContext) : String :=
  "Task Complete: " ++ ctx.task.title

/-- Message for a Completed process. -/
def completed_message (ctx : ExecutionContext) : String :=
  "✅ " ++ quoteCh ++ ctx.task.title ++ quoteCh ++
    " completed successfully\nBranch: " ++
    optionDebug ctx.task_attempt.branch ++ "\nExecutor: " ++
    ctx.task_attempt.executor

/-- Message for a Failed process. -/
def failed_message (ctx : ExecutionContext) : String :=
  "❌ " ++ quoteCh ++ ctx.task.title ++ quoteCh ++
    " execution failed\nBranch: " ++
    optionDebug ctx.task_attempt.branch ++ "\nExecutor: " ++
    ctx.task_attempt.executor

/-- Message for a Killed process. -/
def killed_message (ctx : ExecutionContext) : String :=
  "🛑 " ++ quoteCh ++ ctx.task.title ++ quoteCh ++
    " execution cancelled by user\nBranch: " ++
    optionDebug ctx.task_attempt.branch ++ "\nExecutor: " ++
    ctx.task_attempt.executor

/-- notify_execution_halted: force sound_enabled off for a Killed process,
build the title and the status-specific message, warn and return on a
non-terminal status, otherwise dispatch through notify. -/
def notify_execution_halted (env : Env) (s : NotifState)
    (config : NotificationConfig) (ctx : ExecutionContext) :
    NotifState × List Effect :=
  let config :=
    if ctx.execution_process.status = ExecutionProcessStatus.killed then
      { config with sound_enabled := false }
    else config
  match ctx.execution_process.status with
  | .completed => notify env s config (halted_title ctx) (completed_message ctx)
  | .failed => notify env s config (halted_title ctx) (failed_message ctx)
  | .killed => notify env s config (halted_title ctx) (killed_message ctx)
  | .running => (s, [.logWarn])

/-- Operations of the Linux push subsystem, for reasoning about sequences of
calls within one process. -/
inductive Op where
  | gateEval
  | linuxPush (title message : String)

/-- One operation with the environment it observes. -/
def stepOp (oe : Op × Env) (s : NotifState) : NotifState × List Effect :=
  match oe.1 with
  | .gateEval =>
    let (_, s1, e1) := check_dbus_available oe.2 s
    (s1, e1)
  | .linuxPush t m => send_linux_notification oe.2 s t m

/-- Run a sequence of gate evaluations and push calls, accumulating
effects. -/
def runTrace (trace : List (Op × Env)) (s : NotifState) :
    NotifState × List Effect :=
  match trace with
  | [] => (s, [])
  | oe :: rest =>
    ((runTrace rest (stepOp oe s).1).1,
      (stepOp oe s).2 ++ (runTrace rest (stepOp oe s).1).2)

/-- A convenient fully populated environment for concrete executions. -/
def baseEnv : Env :=
  { targetOS := OS.linux
    is_wsl2 := false
    soundPath := some "/tmp/sound.wav"
    paplayOk := true
    aplayOk := true
    disableDbusEnvSet := false
    probe := .result true
    toast := .ok
    rootCmd := .ran true (.utf8 "C:\\root")
    scriptPath := some "/tmp/script.ps1" }

/-- A convenient execution context for concrete executions. -/
def baseCtx (st : ExecutionProcessStatus) : ExecutionContext :=
  { task := { title := "demo" }
    task_attempt := { branch := some "main", executor := "claude", id := "42" }
    execution_process := { status := st } }
/-- The gate always leaves the check marked done, stores its verdict, and
never touches the root cache. -/
theorem check_dbus_spec (env : Env) (s : NotifState) :
    (check_dbus_available env s).2.1.dbusCheckDone = true
    ∧ (check_dbus_available env s).2.1.dbusAvailable =
        (check_dbus_available env s).1
    ∧ (check_dbus_available env s).2.1.wslRootCache = s.wslRootCache := by
  unfold check_dbus_available
  split_ifs with h1 h2
  · simpa using h1
  · simp
  · rcases env.probe with ⟨_ | _⟩ | _ | _ <;> simp

/-- With the check done and the verdict unavailable, a push call is a pure
skip. -/
theorem push_tripped (env : Env) (s : NotifState) (t m : String)
    (hd : s.dbusCheckDone = true) (ha : s.dbusAvailable = false) :
    send_linux_notification env s t m = (s, [Effect.logDebug]) := by
  simp [send_linux_notification, check_dbus_available, hd, ha]

/-- With the check done, the gate is a pure cached read. -/
theorem gate_cached (env : Env) (s : NotifState) (hd : s.dbusCheckDone = true) :
    check_dbus_available env s = (s.dbusAvailable, s, []) := by
  simp [check_dbus_available, hd]

/-- The root resolver never retrieves the sound file. -/
theorem soundPathFree_root (env : Env) (s : NotifState) :
    Effect.getSoundPath ∉ (get_wsl_root_path env s).2.2 := by
  unfold get_wsl_root_path
  rcases s.wslRootCache with _ | c
  · rcases env.rootCmd with _ | ⟨b, str | _⟩ <;> simp
  · simp

/-- The path translator never retrieves the sound file. -/
theorem soundPathFree_wslpath (env : Env) (s : NotifState) (p : String) :
    Effect.getSoundPath ∉ (wsl_to_windows_path env s p).2.2 := by
  have hr := soundPathFree_root env s
  unfold wsl_to_windows_path
  split_ifs with h1
  · simp
  · rcases hg : get_wsl_root_path env s with ⟨root, s1, e1⟩
    rw [hg] at hr
    rcases root with _ | r <;> simp_all

/-- The availability gate never retrieves the sound file. -/
theorem soundPathFree_check (env : Env) (s : NotifState) :
    Effect.getSoundPath ∉ (check_dbus_available env s).2.2 := by
  unfold check_dbus_available
  split_ifs with h1 h2
  · simp
  · simp
  · rcases env.probe with ⟨_ | _⟩ | _ | _ <;> simp

/-- The Linux push never retrieves the sound file. -/
theorem soundPathFree_linux (env : Env) (s : NotifState) (t m : String) :
    Effect.getSoundPath ∉ (send_linux_notification env s t m).2 := by
  have hc := soundPathFree_check env s
  rcases hdef : check_dbus_available env s with ⟨avail, s1, e1⟩
  rw [hdef] at hc
  simp only [send_linux_notification, hdef]
  cases avail
  · simp_all
  · rcases env.toast with _ | msg | _ | _
    · simp_all
    · by_cases hm : (strContains msg "DBus" || strContains msg "D-Bus") = true <;>
        simp_all [hm]
    · simp_all
    · simp_all

/-- The Windows push never retrieves the sound file. -/
theorem soundPathFree_windows (env : Env) (s : NotifState) (t m : String) :
    Effect.getSoundPath ∉ (send_windows_notification env s t m).2 := by
  unfold send_windows_notification
  rcases env.scriptPath with _ | sp
  · simp
  · have hw := soundPathFree_wslpath env s sp
    rcases hg : wsl_to_windows_path env s sp with ⟨r, s1, e1⟩
    rw [hg] at hw
    split_ifs with h1 <;> simp_all

/-- The push channel never retrieves the sound file. -/
theorem soundPathFree_push (env : Env) (s : NotifState) (t m : String) :
    Effect.getSoundPath ∉ (send_push_notification env s t m).2 := by
  unfold send_push_notification
  split_ifs with h1 h2 h3
  · simp [send_macos_notification]
  · exact soundPathFree_linux env s t m
  · exact soundPathFree_windows env s t m
  · simp

/-- notify with sound disabled never retrieves the sound file. -/
theorem soundPathFree_notify (env : Env) (s : NotifState)
    (config : NotificationConfig) (t m : String)
    (h : config.sound_enabled = false) :
    Effect.getSoundPath ∉ (notify env s config t m).2 := by
  have hp := soundPathFree_push env s t m
  unfold notify
  rw [h]
  split_ifs with h1 <;> simp_all
/-- Each single step keeps the check done, never revives an unavailable
circuit, and never launches the probe once the check is done. -/
theorem stepOp_preserves (oe : Op × Env) (s : NotifState)
    (hd : s.dbusCheckDone = true) :
    (stepOp oe s).1.dbusCheckDone = true
    ∧ (s.dbusAvailable = false → (stepOp oe s).1.dbusAvailable = false)
    ∧ Effect.spawn "dbus-send" ∉ (stepOp oe s).2 := by
  rcases oe with ⟨op, env⟩
  cases op with
  | gateEval =>
    simp [stepOp, gate_cached env s hd, hd]
  | linuxPush t m =>
    cases ha : s.dbusAvailable
    · simp [stepOp, push_tripped env s t m hd ha, hd, ha]
    · refine ⟨?_, fun hcontra => by simp [ha] at hcontra, ?_⟩ <;>
        · rcases ht : env.toast with _ | msg | _ | _
          · simp [stepOp, send_linux_notification, gate_cached env s hd, ha, hd, ht]
          · by_cases hm : (strContains msg "DBus" || strContains msg "D-Bus") = true <;>
              simp [stepOp, send_linux_notification, gate_cached env s hd, ha, hd, ht, hm]
          · simp [stepOp, send_linux_notification, gate_cached env s hd, ha, hd, ht]
          · simp [stepOp, send_linux_notification, gate_cached env s hd, ha, hd, ht]

/-- C1: when the execution process was Killed by the user,
notify_execution_halted dispatches through notify with sound_enabled forced
to false regardless of the caller-supplied flag, and the dispatch never
retrieves the sound file. -/
theorem c1_killed_forces_sound_off (env : Env) (s : NotifState)
    (config : NotificationConfig) (ctx : ExecutionContext)
    (h : ctx.execution_process.status = ExecutionProcessStatus.killed) :
    notify_execution_halted env s config ctx =
      notify env s { config with sound_enabled := false }
        (halted_title ctx) (killed_message ctx)
    ∧ Effect.getSoundPath ∉ (notify_execution_halted env s config ctx).2 := by
  have heq : notify_execution_halted env s config ctx =
      notify env s { config with sound_enabled := false }
        (halted_title ctx) (killed_message ctx) := by
    simp [notify_execution_halted, h]
  refine ⟨heq, ?_⟩
  rw [heq]
  exact soundPathFree_notify env s _ _ _ rfl

/-- Witness for C1 at a concrete killed context with sound enabled. -/
theorem c1_witness :
    notify_execution_halted baseEnv initState ⟨true, true, "f"⟩
        (baseCtx ExecutionProcessStatus.killed) =
      notify baseEnv initState ⟨false, true, "f"⟩
        (halted_title (baseCtx ExecutionProcessStatus.killed))
        (killed_message (baseCtx ExecutionProcessStatus.killed))
    ∧ Effect.getSoundPath ∉
        (notify_execution_halted baseEnv initState ⟨true, true, "f"⟩
          (baseCtx ExecutionProcessStatus.killed)).2 :=
  c1_killed_forces_sound_off baseEnv initState ⟨true, true, "f"⟩
    (baseCtx ExecutionProcessStatus.killed) rfl

/-- C5: a non-terminal status logs exactly one warning and performs nothing
else: no state change and no other effect. -/
theorem c5_nonterminal_warns_only (env : Env) (s : NotifState)
    (config : NotificationConfig) (ctx : ExecutionContext)
    (h1 : ctx.execution_process.status ≠ ExecutionProcessStatus.completed)
    (h2 : ctx.execution_process.status ≠ ExecutionProcessStatus.failed)
    (h3 : ctx.execution_process.status ≠ ExecutionProcessStatus.killed) :
    notify_execution_halted env s config ctx = (s, [Effect.logWarn]) := by
  have hr : ctx.execution_process.status = ExecutionProcessStatus.running := by
    cases h : ctx.execution_process.status <;> simp_all
  simp [notify_execution_halted, hr]

/-- Witness for C5 at a concrete still-running context. -/
theorem c5_witness :
    notify_execution_halted baseEnv initState ⟨true, true, "f"⟩
        (baseCtx ExecutionProcessStatus.running) =
      (initState, [Effect.logWarn]) :=
  c5_nonterminal_warns_only baseEnv initState ⟨true, true, "f"⟩
    (baseCtx ExecutionProcessStatus.running)
    (by decide) (by decide) (by decide)

/-- C9: notify with both channels disabled is pure: unchanged state and an
empty effect list. -/
theorem c9_disabled_notify_pure (env : Env) (s : NotifState)
    (sf t m : String) :
    notify env s ⟨false, false, sf⟩ t m = (s, []) := rfl

/-- C6: the path translator returns a relative path unchanged, returns
root ++ path by plain concatenation when the cached root is resolved, and
returns nothing when resolution permanently failed. -/
theorem c6_path_translation (env : Env) (s : NotifState) (path : String) :
    (strStartsWith path "/" = false →
      wsl_to_windows_path env s path = (some path, s, [Effect.logDebug]))
    ∧ (∀ r : String, s.wslRootCache = some (some r) →
        strStartsWith path "/" = true →
        wsl_to_windows_path env s path =
          (some (r ++ path), s, [Effect.logDebug]))
    ∧ (s.wslRootCache = some none → strStartsWith path "/" = true →
        wsl_to_windows_path env s path = (none, s, [Effect.logError])) := by
  refine ⟨fun h => ?_, fun r hr h => ?_, fun hr h => ?_⟩
  · simp [wsl_to_windows_path, h]
  · simp [wsl_to_windows_path, get_wsl_root_path, h, hr]
  · simp [wsl_to_windows_path, get_wsl_root_path, h, hr]

/-- Witness for C6: the spec example with a Windows root, plus the relative
and failed-resolution cases. -/
theorem c6_witness :
    wsl_to_windows_path baseEnv
        ⟨some (some "C:\\Users\\u\\AppData"), true, true⟩ "/home/u/sound.wav" =
      (some "C:\\Users\\u\\AppData/home/u/sound.wav",
        ⟨some (some "C:\\Users\\u\\AppData"), true, true⟩, [Effect.logDebug])
    ∧ wsl_to_windows_path baseEnv
        ⟨some (some "C:\\Users\\u\\AppData"), true, true⟩ "sound.wav" =
      (some "sound.wav",
        ⟨some (some "C:\\Users\\u\\AppData"), true, true⟩, [Effect.logDebug])
    ∧ wsl_to_windows_path baseEnv ⟨some none, true, true⟩ "/home/u/sound.wav" =
      (none, ⟨some none, true, true⟩, [Effect.logError]) := by
  refine ⟨?_, ?_, ?_⟩
  · exact (c6_path_translation baseEnv _ _).2.1 "C:\\Users\\u\\AppData" rfl
      (by decide)
  · exact (c6_path_translation baseEnv _ _).1 (by decide)
  · exact (c6_path_translation baseEnv _ _).2.2 rfl (by decide)

/-- C7: on native Linux the audio chain is paplay, then aplay, then the
terminal bell, ending at the first successful launch. -/
theorem c7_linux_audio_chain (env : Env) (s : NotifState) (fp : String)
    (hos : env.targetOS = OS.linux) (hw : env.is_wsl2 = false)
    (hsp : env.soundPath = some fp) :
    play_sound_notification env s =
      (s, Effect.getSoundPath ::
        (if env.paplayOk then [Effect.spawn "paplay"]
         else if env.aplayOk then [Effect.spawn "paplay", Effect.spawn "aplay"]
         else [Effect.spawn "paplay", Effect.spawn "aplay",
           Effect.spawn "echo"])) := by
  cases hp : env.paplayOk <;> cases ha : env.aplayOk <;>
    simp [play_sound_notification, hsp, hos, hw, hp, ha]

/-- Witness for C7: primary launch fails, secondary succeeds, so exactly two
attempts happen and the bell is never tried. -/
theorem c7_witness :
    play_sound_notification { baseEnv with paplayOk := false } initState =
      (initState,
        [Effect.getSoundPath, Effect.spawn "paplay", Effect.spawn "aplay"])
    ∧ Effect.spawn "echo" ∉
        (play_sound_notification { baseEnv with paplayOk := false }
          initState).2 := by
  have h := c7_linux_audio_chain { baseEnv with paplayOk := false } initState
    "/tmp/sound.wav" rfl rfl rfl
  exact ⟨h, by rw [h]; decide⟩

/-- C10: any UTF-8 stdout is trimmed and cached as Some, whatever the exit
status was, and the cached value is returned to every later caller. -/
theorem c10_status_never_inspected (env : Env) (s : NotifState)
    (b : Bool) (str : String)
    (hc : s.wslRootCache = none)
    (hr : env.rootCmd = RootCmdOutcome.ran b (StdoutData.utf8 str)) :
    get_wsl_root_path env s =
      (some (trimString str),
        { s with wslRootCache := some (some (trimString str)) },
        [Effect.spawn "powershell.exe", Effect.logInfo])
    ∧ ∀ env2 : Env,
        get_wsl_root_path env2
            { s with wslRootCache := some (some (trimString str)) } =
          (some (trimString str),
            { s with wslRootCache := some (some (trimString str)) }, []) := by
  constructor
  · simp [get_wsl_root_path, hc, hr]
  · intro env2
    simp [get_wsl_root_path]

/-- Witness for C10: the command exits with a failure status and empty
stdout, yet Some of the empty string is cached and returned. -/
theorem c10_witness :
    get_wsl_root_path
        { baseEnv with rootCmd := RootCmdOutcome.ran false (StdoutData.utf8 "") }
        initState =
      (some "", ⟨some (some ""), true, false⟩,
        [Effect.spawn "powershell.exe", Effect.logInfo])
    ∧ get_wsl_root_path baseEnv ⟨some (some ""), true, false⟩ =
        (some "", ⟨some (some ""), true, false⟩, []) := by
  have h := c10_status_never_inspected
    { baseEnv with rootCmd := RootCmdOutcome.ran false (StdoutData.utf8 "") }
    initState false "" rfl rfl
  exact ⟨h.1, h.2 baseEnv⟩

/-- C3 as stated is false: an empty (after trimming) stdout does not cache
Resolved(None); it caches Resolved(Some of the empty string), and the
resolver returns Some of the empty string. -/
theorem c3_counterexample :
    (get_wsl_root_path
        { baseEnv with rootCmd := RootCmdOutcome.ran true (StdoutData.utf8 "  \n") }
        initState).2.1.wslRootCache = some (some "")
    ∧ (get_wsl_root_path
        { baseEnv with rootCmd := RootCmdOutcome.ran true (StdoutData.utf8 "  \n") }
        initState).1 = some ""
    ∧ (wsl_to_windows_path baseEnv ⟨some (some ""), true, false⟩
        "/home/u/sound.wav").1 = some "/home/u/sound.wav" := by decide

/-- C3 amended: an execution fault or non-UTF8 stdout caches the permanent
failure Resolved(None), and every later absolute-path translation returns
nothing without re-invoking the resolver. -/
theorem c3_failure_cached_permanently (env : Env) (s : NotifState)
    (hc : s.wslRootCache = none)
    (hr : env.rootCmd = RootCmdOutcome.execErr ∨
      ∃ b : Bool, env.rootCmd = RootCmdOutcome.ran b StdoutData.nonUtf8) :
    (get_wsl_root_path env s).1 = none
    ∧ (get_wsl_root_path env s).2.1 = { s with wslRootCache := some none }
    ∧ ∀ (env2 : Env) (path : String), strStartsWith path "/" = true →
        wsl_to_windows_path env2 { s with wslRootCache := some none } path =
          (none, { s with wslRootCache := some none }, [Effect.logError]) := by
  have h1 : get_wsl_root_path env s =
      (none, { s with wslRootCache := some none },
        [Effect.spawn "powershell.exe", Effect.logError]) := by
    rcases hr with hr | ⟨b, hr⟩ <;> simp [get_wsl_root_path, hc, hr]
  refine ⟨by rw [h1], by rw [h1], fun env2 path hp => ?_⟩
  simp [wsl_to_windows_path, get_wsl_root_path, hp]

/-- Witness for the amended C3 at a concrete execution fault. -/
theorem c3_witness :
    (get_wsl_root_path { baseEnv with rootCmd := RootCmdOutcome.execErr }
        initState).1 = none
    ∧ (get_wsl_root_path { baseEnv with rootCmd := RootCmdOutcome.execErr }
        initState).2.1 = ⟨some none, true, false⟩
    ∧ wsl_to_windows_path baseEnv ⟨some none, true, false⟩
        "/home/u/sound.wav" =
      (none, ⟨some none, true, false⟩, [Effect.logError]) := by
  have h := c3_failure_cached_permanently
    { baseEnv with rootCmd := RootCmdOutcome.execErr } initState rfl (Or.inl rfl)
  exact ⟨h.1, h.2.1, h.2.2 baseEnv "/home/u/sound.wav" (by decide)⟩
/-- C4: once the check is done, every sequence of gate evaluations and push
calls keeps it done, never revives an unavailable circuit, and never
launches the dbus-send probe again. -/
theorem c4_circuit_monotone (trace : List (Op × Env)) (s : NotifState)
    (hdone : s.dbusCheckDone = true) :
    (runTrace trace s).1.dbusCheckDone = true
    ∧ (s.dbusAvailable = false → (runTrace trace s).1.dbusAvailable = false)
    ∧ Effect.spawn "dbus-send" ∉ (runTrace trace s).2 := by
  induction trace generalizing s with
  | nil => simpa [runTrace] using hdone
  | cons oe rest ih =>
    obtain ⟨h1, h2, h3⟩ := stepOp_preserves oe s hdone
    obtain ⟨g1, g2, g3⟩ := ih (stepOp oe s).1 h1
    refine ⟨g1, fun ha => g2 (h2 ha), ?_⟩
    simp only [runTrace, List.mem_append]
    exact fun hmem => hmem.elim h3 g3

/-- Witness for C4: a gate evaluation followed by a push, starting from a
tripped circuit. -/
theorem c4_witness :
    (runTrace [(Op.gateEval, baseEnv), (Op.linuxPush "t" "m", baseEnv)]
        ⟨none, false, true⟩).1.dbusCheckDone = true
    ∧ (runTrace [(Op.gateEval, baseEnv), (Op.linuxPush "t" "m", baseEnv)]
        ⟨none, false, true⟩).1.dbusAvailable = false
    ∧ Effect.spawn "dbus-send" ∉
        (runTrace [(Op.gateEval, baseEnv), (Op.linuxPush "t" "m", baseEnv)]
          ⟨none, false, true⟩).2 := by
  have h := c4_circuit_monotone
    [(Op.gateEval, baseEnv), (Op.linuxPush "t" "m", baseEnv)]
    ⟨none, false, true⟩ rfl
  exact ⟨h.1, h.2.1 rfl, h.2.2⟩

/-- C2 as stated is false: after the gate reported available, an inner toast
fault whose message does not mention DBus leaves the circuit Available, and
the immediately following push call launches the toast client again. -/
theorem c2_counterexample :
    (send_linux_notification
        { baseEnv with toast := ToastOutcome.showErr "connection refused" }
        ⟨none, true, true⟩ "t" "m").1.dbusAvailable = true
    ∧ Effect.toastShow ∈
        (send_linux_notification
          { baseEnv with toast := ToastOutcome.showErr "connection refused" }
          (send_linux_notification
            { baseEnv with toast := ToastOutcome.showErr "connection refused" }
            ⟨none, true, true⟩ "t" "m").1 "t" "m").2 := by decide

/-- C2 amended: after the gate reports available, a timeout, a worker-task
failure, or an inner fault whose message mentions DBus trips the circuit to
Unavailable, and every subsequent push call only logs a skip, with zero
probe or toast launches. -/
theorem c2_trip_on_timeout_task_dbus (env : Env) (s : NotifState)
    (t m : String)
    (hgate : (check_dbus_available env s).1 = true)
    (hf : env.toast = ToastOutcome.timedOut ∨
      env.toast = ToastOutcome.taskFailed ∨
      ∃ msg, env.toast = ToastOutcome.showErr msg ∧
        (strContains msg "DBus" || strContains msg "D-Bus") = true) :
    (send_linux_notification env s t m).1.dbusAvailable = false
    ∧ (send_linux_notification env s t m).1.dbusCheckDone = true
    ∧ ∀ (env2 : Env) (t2 m2 : String),
        send_linux_notification env2 (send_linux_notification env s t m).1
            t2 m2 =
          ((send_linux_notification env s t m).1, [Effect.logDebug]) := by
  obtain ⟨hdone, hav, _⟩ := check_dbus_spec env s
  rcases hdef : check_dbus_available env s with ⟨avail, s1, e1⟩
  rw [hdef] at hgate hdone hav
  simp only at hgate hdone hav
  have hres : (send_linux_notification env s t m).1 =
      { s1 with dbusAvailable := false } := by
    rcases hf with hf | hf | ⟨msg, hf, hm⟩
    · simp [send_linux_notification, hdef, hf, hgate]
    · simp [send_linux_notification, hdef, hf, hgate]
    · simp [send_linux_notification, hdef, hf, hm, hgate]
  refine ⟨by rw [hres], by rw [hres]; simpa using hdone, fun env2 t2 m2 => ?_⟩
  rw [hres]
  exact push_tripped env2 _ t2 m2 (by simpa using hdone) rfl

/-- Witness for the amended C2: a concrete timeout trips the circuit and the
following call is a pure skip. -/
theorem c2_witness :
    (send_linux_notification { baseEnv with toast := ToastOutcome.timedOut }
        ⟨none, true, true⟩ "t" "m").1.dbusAvailable = false
    ∧ (send_linux_notification { baseEnv with toast := ToastOutcome.timedOut }
        ⟨none, true, true⟩ "t" "m").1.dbusCheckDone = true
    ∧ send_linux_notification { baseEnv with toast := ToastOutcome.timedOut }
        (send_linux_notification
          { baseEnv with toast := ToastOutcome.timedOut }
          ⟨none, true, true⟩ "t" "m").1 "t" "m" =
        ((send_linux_notification
          { baseEnv with toast := ToastOutcome.timedOut }
          ⟨none, true, true⟩ "t" "m").1, [Effect.logDebug]) := by
  have h := c2_trip_on_timeout_task_dbus
    { baseEnv with toast := ToastOutcome.timedOut }
    ⟨none, true, true⟩ "t" "m" rfl (Or.inl rfl)
  exact ⟨h.1, h.2.1, h.2.2 _ "t" "m"⟩

/-- C8: with the opt-out flag set, the first gate evaluation caches
Unavailable reading only the environment variable, every push dispatch
performs zero probe or toast launches, and later gate evaluations read the
cache without consulting the environment again. -/
theorem c8_env_flag_disables (env : Env) (s : NotifState) (t m : String)
    (hflag : env.disableDbusEnvSet = true) (hnd : s.dbusCheckDone = false) :
    check_dbus_available env s =
      (false, { s with dbusAvailable := false, dbusCheckDone := true },
        [Effect.readEnvVar "DISABLE_DBUS_NOTIFICATIONS", Effect.logInfo])
    ∧ send_linux_notification env s t m =
        ({ s with dbusAvailable := false, dbusCheckDone := true },
          [Effect.readEnvVar "DISABLE_DBUS_NOTIFICATIONS", Effect.logInfo,
            Effect.logDebug])
    ∧ (∀ env2 : Env,
        check_dbus_available env2
            { s with dbusAvailable := false, dbusCheckDone := true } =
          (false, { s with dbusAvailable := false, dbusCheckDone := true },
            []))
    ∧ ∀ (env2 : Env) (t2 m2 : String),
        send_linux_notification env2
            { s with dbusAvailable := false, dbusCheckDone := true } t2 m2 =
          ({ s with dbusAvailable := false, dbusCheckDone := true },
            [Effect.logDebug]) := by
  have h1 : check_dbus_available env s =
      (false, { s with dbusAvailable := false, dbusCheckDone := true },
        [Effect.readEnvVar "DISABLE_DBUS_NOTIFICATIONS", Effect.logInfo]) := by
    simp [check_dbus_available, hnd, hflag]
  refine ⟨h1, ?_, fun env2 => gate_cached env2 _ rfl,
    fun env2 t2 m2 => push_tripped env2 _ t2 m2 rfl rfl⟩
  simp [send_linux_notification, h1]

/-- Witness for C8 at a concrete flagged environment from the initial
state. -/
theorem c8_witness :
    check_dbus_available { baseEnv with disableDbusEnvSet := true }
        initState =
      (false, ⟨none, false, true⟩,
        [Effect.readEnvVar "DISABLE_DBUS_NOTIFICATIONS", Effect.logInfo])
    ∧ send_linux_notification { baseEnv with disableDbusEnvSet := true }
        initState "t" "m" =
        (⟨none, false, true⟩,
          [Effect.readEnvVar "DISABLE_DBUS_NOTIFICATIONS", Effect.logInfo,
            Effect.logDebug])
    ∧ check_dbus_available baseEnv ⟨none, false, true⟩ =
        (false, ⟨none, false, true⟩, [])
    ∧ send_linux_notification baseEnv ⟨none, false, true⟩ "t2" "m2" =
        (⟨none, false, true⟩, [Effect.logDebug]) := by
  have h := c8_env_flag_disables { baseEnv with disableDbusEnvSet := true }
    initState "t" "m" rfl rfl
  exact ⟨h.1, h.2.1, h.2.2.1 baseEnv, h.2.2.2 baseEnv "t2" "m2"⟩
